import Mathlib

/-!
Shallow embedding of the afkrip repository (src/src/lib.rs): a virtual-mouse
wrapper over an OS input-injection facility and an idle-driven control loop.

Modelling conventions:
* OS emission calls (`VirtualDevice::emit`) are driven by an explicit oracle of
  booleans (one per emit call) recording whether the OS accepts the submission;
  every call and its event payload is recorded in a trace.
* `u64` arithmetic is `Nat` taken modulo `2^64` where the source multiplies.
* `rand::Rng::gen_range(lo..hi)` is modelled as a function of a uniform natural
  source `u`; it returns `none` on an empty range (rand panics there).
* Console/process observables of `start` are a trace of events.
-/

/-- The u64 modulus, `2^64`. -/
def u64Size : Nat := 18446744073709551616

/-- Error enum `input::errors::MouseError` (lib.rs lines 12-19). -/
inductive MouseError where
  | BuilderInitError
  | KeysAssignError
  | AxesAssignError
  | CreateDeviceError
  | ButtonEventEmitError
  | AxisEventEmitError
  deriving DecidableEq

/-- The exhaustive message map `MouseError::message` (lib.rs lines 21-32). -/
def MouseError.message : MouseError → String
  | .BuilderInitError => "Cannot initialize device builder"
  | .KeysAssignError => "Cannot assign keys to virtual mouse"
  | .AxesAssignError => "Cannot assign axes to virtual mouse"
  | .CreateDeviceError => "Cannot create virtual mouse"
  | .AxisEventEmitError => "Cannot move virtual mouse"
  | .ButtonEventEmitError => "Cannot click virtual mouse"

/-- evdev event types used by the source: `EventType::KEY` and
`EventType::RELATIVE`. -/
inductive EventType where
  | KEY
  | RELATIVE
  deriving DecidableEq

/-- evdev key code `Key::BTN_LEFT` (0x110). -/
def BTN_LEFT : Nat := 272

/-- evdev key code `Key::BTN_RIGHT` (0x111). -/
def BTN_RIGHT : Nat := 273

/-- evdev relative axis code `RelativeAxisType::REL_X`. -/
def REL_X : Nat := 0

/-- evdev relative axis code `RelativeAxisType::REL_Y`. -/
def REL_Y : Nat := 1

/-- evdev bus type `BusType::BUS_USB`. -/
def BUS_USB : Nat := 3

/-- An evdev `InputEvent`: type, code and i32 value. -/
structure InputEvent where
  type : EventType
  code : Nat
  value : Int
  deriving DecidableEq

/-- Constructor `Mouse::move_event` (lib.rs lines 64-66): a RELATIVE event on
the given axis. -/
def move_event (axis : Nat) (value : Int) : InputEvent :=
  ⟨EventType.RELATIVE, axis, value⟩

/-- Constructor `Mouse::key_event` (lib.rs lines 68-70): a KEY event for the
given key code. -/
def key_event (code : Nat) (value : Int) : InputEvent :=
  ⟨EventType.KEY, code, value⟩

/-- One observable action of the virtual device wrapper: an emit call with its
payload and whether the OS accepted it, or a sleep of some milliseconds. -/
inductive DevAct where
  | emitCall (evs : List InputEvent) (ok : Bool)
  | sleepMs (ms : Nat)
  deriving DecidableEq

/-- Device state: the oracle of outcomes for future emit calls (an exhausted
oracle means the OS accepts) and the trace of actions so far. -/
structure DeviceState where
  oracle : List Bool
  trace : List DevAct
  deriving DecidableEq

/-- `VirtualDevice::emit`: records the submission and reports the OS outcome
from the oracle. -/
def emit (st : DeviceState) (evs : List InputEvent) : Bool × DeviceState :=
  match st.oracle with
  | [] => (true, ⟨[], st.trace ++ [DevAct.emitCall evs true]⟩)
  | b :: rest => (b, ⟨rest, st.trace ++ [DevAct.emitCall evs b]⟩)

/-- `std::thread::sleep`, recorded in the trace. -/
def sleepAct (st : DeviceState) (ms : Nat) : DeviceState :=
  ⟨st.oracle, st.trace ++ [DevAct.sleepMs ms]⟩

/-- `Mouse::key_down` (lib.rs lines 72-77): emit a single key event with
value 1, mapping an OS rejection to `ButtonEventEmitError`. -/
def key_down (st : DeviceState) (key : Nat) : Except MouseError Unit × DeviceState :=
  let (ok, st') := emit st [key_event key 1]
  (if ok then Except.ok () else Except.error MouseError.ButtonEventEmitError, st')

/-- `Mouse::key_up` (lib.rs lines 79-84): emit a single key event with
value 0, mapping an OS rejection to `ButtonEventEmitError`. -/
def key_up (st : DeviceState) (key : Nat) : Except MouseError Unit × DeviceState :=
  let (ok, st') := emit st [key_event key 0]
  (if ok then Except.ok () else Except.error MouseError.ButtonEventEmitError, st')

/-- `Mouse::click` (lib.rs lines 86-91): key_down, sleep 50 ms, key_up, with
`?`-propagation of the first failure. -/
def click (st : DeviceState) (key : Nat) : Except MouseError Unit × DeviceState :=
  match key_down st key with
  | (Except.error e, st1) => (Except.error e, st1)
  | (Except.ok _, st1) =>
    let st2 := sleepAct st1 50
    match key_up st2 key with
    | (Except.error e, st3) => (Except.error e, st3)
    | (Except.ok _, st3) => (Except.ok (), st3)

/-- `Mouse::pointer_move` (lib.rs lines 103-111): one emit call carrying the
REL_X event then the REL_Y event, mapping an OS rejection to
`AxisEventEmitError`. -/
def pointer_move (st : DeviceState) (x y : Int) : Except MouseError Unit × DeviceState :=
  let (ok, st') := emit st [move_event REL_X x, move_event REL_Y y]
  (if ok then Except.ok () else Except.error MouseError.AxisEventEmitError, st')

/-- The events actually delivered to the OS: payloads of accepted emit calls,
in order. -/
def delivered (tr : List DevAct) : List InputEvent :=
  tr.foldr (fun a acc =>
    match a with
    | DevAct.emitCall evs true => evs ++ acc
    | _ => acc) []

/-- Number of delivered KEY events for `key` with the given value. -/
def keyEventCount (tr : List DevAct) (key : Nat) (v : Int) : Nat :=
  (delivered tr).countP (fun e => e = key_event key v)

/-- The device configuration registered by `Mouse::new` on success: name, key
capabilities, relative-axis capabilities, input identity and the settle sleep. -/
structure MouseSetup where
  name : String
  keys : List Nat
  axes : List Nat
  bus : Nat
  vendor : Nat
  product : Nat
  version : Nat
  settle_ms : Nat
  deriving DecidableEq

/-- `Mouse::new` (lib.rs lines 40-62): four chained fallible steps (builder
init, key-capability assignment, axis-capability assignment, device build),
each passed as a boolean of the OS outcome; on success the registered
configuration, after a 150 ms settle sleep. -/
def Mouse.new (builderOk keysOk axesOk buildOk : Bool) : Except MouseError MouseSetup :=
  if !builderOk then Except.error MouseError.BuilderInitError
  else if !keysOk then Except.error MouseError.KeysAssignError
  else if !axesOk then Except.error MouseError.AxesAssignError
  else if !buildOk then Except.error MouseError.CreateDeviceError
  else Except.ok
    { name := "KPRS mouse device"
      keys := [BTN_LEFT, BTN_RIGHT]
      axes := [REL_X, REL_Y]
      bus := BUS_USB
      vendor := 1
      product := 1
      version := 1
      settle_ms := 150 }

/-- Model of `rand::Rng::gen_range(lo..hi)` on integers: from a uniform
natural source `u`, the draw is `lo + (u mod (hi - lo))`; the range must be
nonempty, otherwise rand panics, modelled as `none`. -/
def gen_range (lo hi : Int) (u : Nat) : Option Int :=
  if lo < hi then some (lo + ((u % (hi - lo).toNat : Nat) : Int)) else none

/-- One observable event of the controller `start` (lib.rs lines 192-215):
a sleep, a console line, a `pointer_move` call with its deltas and OS outcome,
or a process exit with a status code. -/
inductive Ev where
  | sleepMs (ms : Nat)
  | printLine (s : String)
  | moveCall (dx dy : Int) (ok : Bool)
  | exitCode (n : Nat)
  deriving DecidableEq

/-- External inputs consumed by one loop iteration: the idle sample returned
by `rs_idle::get_idle_time` (a u64, in milliseconds), the two uniform sources
feeding the two `gen_range` draws, and the OS outcome of the `pointer_move`
emit, if one happens. -/
structure LoopInput where
  idle : Nat
  ux : Nat
  uy : Nat
  moveOk : Bool
  deriving DecidableEq

/-- The wrapped u64 threshold `idle_time * 60 * 1000` computed by the loop
condition (lib.rs line 208). -/
def thresholdMs (idle_time : Nat) : Nat :=
  (idle_time * 60 % u64Size) * 1000 % u64Size

/-- One iteration of the control loop (lib.rs lines 203-214): sleep 1 s, read
the idle time, and if it exceeds the wrapped threshold draw both deltas, print
the action, call `pointer_move`, and print the error message if the move
fails. `none` models the panic of `gen_range` on an empty range. -/
def iteration (idle_time : Nat) (mouse_range : Int) (inp : LoopInput) : Option (List Ev) :=
  if inp.idle > thresholdMs idle_time then
    match gen_range (-mouse_range) mouse_range inp.ux,
          gen_range (-mouse_range) mouse_range inp.uy with
    | some x, some y =>
      some ([Ev.sleepMs 1000,
             Ev.printLine ("Idle: " ++ toString inp.idle ++ "ms, moving mouse by x: "
               ++ toString x ++ ", y: " ++ toString y),
             Ev.moveCall x y inp.moveOk]
            ++ (if inp.moveOk then [] else [Ev.printLine MouseError.AxisEventEmitError.message]))
    | _, _ => none
  else some [Ev.sleepMs 1000]

/-- The control loop run over a finite prefix of its input stream; a panicking
iteration aborts the process, so nothing follows it. -/
def runLoop (idle_time : Nat) (mouse_range : Int) : List LoopInput → List Ev
  | [] => []
  | inp :: rest =>
    match iteration idle_time mouse_range inp with
    | some evs => evs ++ runLoop idle_time mouse_range rest
    | none => []

/-- The trace of `start` (lib.rs lines 192-215): the two configuration lines,
then either the error message of the failed `Mouse::new` followed by
`std::process::exit(1)` (via `error_exit`, lib.rs lines 183-186), or the
control loop. -/
def startTrace (idle_time : Nat) (mouse_range : Int)
    (newRes : Except MouseError MouseSetup) (iters : List LoopInput) : List Ev :=
  [Ev.printLine ("Idle time set to: " ++ toString idle_time ++ " minutes"),
   Ev.printLine ("When idle mouse will be moved by " ++ toString mouse_range
     ++ "px in both axes")]
  ++ match newRes with
     | Except.error e => [Ev.printLine e.message, Ev.exitCode 1]
     | Except.ok _ => runLoop idle_time mouse_range iters

/-- Predicate picking the `pointer_move` calls out of a controller trace. -/
def isMove : Ev → Bool
  | Ev.moveCall _ _ _ => true
  | _ => false

/-- Number of `pointer_move` calls in a controller trace. -/
def movesIn (evs : List Ev) : Nat := evs.countP isMove

/-- Decimal digit value of a character, following Rust's `char::to_digit`. -/
def digitVal (c : Char) : Option Nat :=
  if '0' ≤ c ∧ c ≤ '9' then some (c.toNat - 48) else none

/-- Accumulate a nonempty string of decimal digits into a natural number;
`none` if the list is empty or holds a non-digit, following Rust's
`from_str_radix` digit loop (the overflow check is applied afterwards, which
is equivalent for decimal accumulation). -/
def parseDigits (cs : List Char) : Option Nat :=
  match cs with
  | [] => none
  | _ =>
    cs.foldl (fun acc c =>
      match acc, digitVal c with
      | some n, some d => some (n * 10 + d)
      | _, _ => none) (some 0)

/-- Drop an optional leading `+` sign, as Rust's unsigned `from_str` does. -/
def stripPlus (cs : List Char) : List Char :=
  match cs with
  | '+' :: rest => rest
  | other => other

/-- Model of Rust's `str::parse::<u64>`: an optional leading `+`, then a
nonempty run of decimal digits whose value fits in 64 bits; a leading `-` is
not a sign for an unsigned type and fails as an invalid digit. -/
def parseU64 (s : String) : Option Nat :=
  match parseDigits (stripPlus s.data) with
  | some n => if n < u64Size then some n else none
  | none => none

/-- Model of Rust's `str::parse::<i32>`: an optional sign, then a nonempty run
of decimal digits; the value must lie in `[-2^31, 2^31 - 1]`. -/
def parseI32 (s : String) : Option Int :=
  match s.data with
  | '-' :: rest =>
    match parseDigits rest with
    | some n => if n ≤ 2147483648 then some (-(n : Int)) else none
    | none => none
  | '+' :: rest =>
    match parseDigits rest with
    | some n => if n ≤ 2147483647 then some (n : Int) else none
    | none => none
  | cs =>
    match parseDigits cs with
    | some n => if n ≤ 2147483647 then some (n : Int) else none
    | none => none

/-- CLI validator `cli::validators::idle_time` (lib.rs lines 119-124): accept
exactly the strings that parse as a u64. -/
def validators.idle_time (value : String) : Except String Nat :=
  match parseU64 value with
  | some number => Except.ok number
  | none => Except.error "must be valid positive integer"

/-- CLI validator `cli::validators::mouse_range` (lib.rs lines 125-136):
accept exactly the strings that parse as an i32 and are nonnegative. -/
def validators.mouse_range (value : String) : Except String Int :=
  match parseI32 value with
  | some number =>
    if number ≥ 0 then Except.ok number else Except.error "must be positive integer"
  | none => Except.error "must be valid positive integer"

/-! ### Helper lemmas -/

/-- A successful `gen_range lo hi` draw lies in the half-open interval
`[lo, hi)`. -/
theorem gen_range_mem {lo hi : Int} {u : Nat} {v : Int}
    (h : gen_range lo hi u = some v) : lo ≤ v ∧ v < hi := by
  unfold gen_range at h
  split at h
  · rename_i hlt
    injection h with hv
    have hpos : 0 < (hi - lo).toNat := by omega
    have h1 : u % (hi - lo).toNat < (hi - lo).toNat := Nat.mod_lt u hpos
    omega
  · exact absurd h (by simp)

/-- On a nonempty symmetric range the `gen_range` draw never panics. -/
theorem gen_range_pos_some {R : Int} (hR : 0 < R) (u : Nat) :
    ∃ v, gen_range (-R) R u = some v := by
  unfold gen_range
  rw [if_pos (by omega)]
  exact ⟨_, rfl⟩

/-! ### C1 -/

/-- C1 (amended): every `pointer_move` call issued by a loop iteration has
both deltas in `[-mouse_range, mouse_range)`; for `R > 0` each draw is a
total, uniform image of the uniform source (each value of `[-R, R)` is hit by
exactly one source value below the range size); and with `mouse_range = 0` a
triggered iteration panics on the empty range and issues no move at all
(rather than moving by `(0, 0)`). -/
theorem c1_move_delta_distribution :
    (∀ t r inp evs x y ok, iteration t r inp = some evs →
      Ev.moveCall x y ok ∈ evs → (-r ≤ x ∧ x < r) ∧ (-r ≤ y ∧ y < r))
    ∧ (∀ R : Int, 0 < R → ∀ u : Nat, ∃ v, gen_range (-R) R u = some v ∧ -R ≤ v ∧ v < R)
    ∧ (∀ R : Int, 0 < R → ∀ v : Int, -R ≤ v → v < R →
        ∃! u : Nat, u < (2 * R).toNat ∧ gen_range (-R) R u = some v)
    ∧ (∀ t inp, thresholdMs t < inp.idle → iteration t 0 inp = none) := by
  refine ⟨?_, ?_, ?_, ?_⟩
  · intro t r inp evs x y ok hIt hMem
    unfold iteration at hIt
    split at hIt
    · cases hx : gen_range (-r) r inp.ux with
      | none => rw [hx] at hIt; simp at hIt
      | some x0 =>
        cases hy : gen_range (-r) r inp.uy with
        | none => rw [hx, hy] at hIt; simp at hIt
        | some y0 =>
          rw [hx, hy] at hIt
          injection hIt with hL
          subst hL
          by_cases hmo : inp.moveOk <;> simp [hmo] at hMem <;>
            obtain ⟨rfl, rfl, rfl⟩ := hMem <;>
            exact ⟨gen_range_mem hx, gen_range_mem hy⟩
    · injection hIt with hL
      subst hL
      simp at hMem
  · intro R hR u
    obtain ⟨v, hv⟩ := gen_range_pos_some hR u
    exact ⟨v, hv, gen_range_mem hv⟩
  · intro R hR v hv1 hv2
    have h2R : R - -R = 2 * R := by ring
    refine ⟨(v + R).toNat, ⟨by omega, ?_⟩, ?_⟩
    · unfold gen_range
      rw [if_pos (show -R < R by omega), h2R]
      have hmod : (v + R).toNat % (2 * R).toNat = (v + R).toNat :=
        Nat.mod_eq_of_lt (by omega)
      rw [hmod]
      congr 1
      omega
    · rintro u' ⟨hlt', heq'⟩
      unfold gen_range at heq'
      rw [if_pos (show -R < R by omega), h2R] at heq'
      injection heq' with h
      rw [Nat.mod_eq_of_lt hlt'] at h
      omega
  · intro t inp h
    unfold iteration
    rw [if_pos h]
    have hnone : gen_range (-(0 : Int)) 0 inp.ux = none := by
      unfold gen_range
      rw [if_neg (by omega)]
    rw [hnone]

/-- C1 counterexample: with `mouse_range = 0` and an idle sample above the
threshold, the code does not move by `(0, 0)`: the `gen_range` draw on the
empty range `0..0` panics (`none`) and the iteration aborts with no move. -/
theorem c1_counterexample :
    iteration 0 0 ⟨1, 0, 0, true⟩ = none ∧ gen_range (-(0 : Int)) 0 0 = none := by
  constructor <;> rfl

/-- Witness for C1 at concrete inputs. -/
theorem c1_witness :
    (∃ v, gen_range (-50 : Int) 50 7 = some v ∧ -50 ≤ v ∧ v < 50)
    ∧ iteration 0 0 ⟨2, 1, 1, true⟩ = none :=
  ⟨c1_move_delta_distribution.2.1 50 (by norm_num) 7,
   c1_move_delta_distribution.2.2.2 0 ⟨2, 1, 1, true⟩ (by decide)⟩

/-! ### C2 -/

/-- Threshold arithmetic stays exact while `idle_time * 60000` fits in 64
bits. -/
theorem thresholdMs_eq_of_lt {t : Nat} (ht : t * 60000 < u64Size) :
    thresholdMs t = t * 60000 := by
  unfold thresholdMs u64Size at *
  omega

/-- C2 (amended): for every configured threshold `T` with `T * 60000` below
`2^64` and a positive `mouse_range`, a loop iteration issues exactly one
`pointer_move` call when the idle sample strictly exceeds `T * 60000` and
none otherwise; for larger `T` the code compares against the wrapped product
`T * 60 * 1000 mod 2^64` instead. -/
theorem c2_idle_threshold_gates_moves (t : Nat) (r : Int) (inp : LoopInput)
    (ht : t * 60000 < u64Size) (hr : 0 < r) :
    ∃ evs, iteration t r inp = some evs ∧
      movesIn evs = if t * 60000 < inp.idle then 1 else 0 := by
  have hth : thresholdMs t = t * 60000 := thresholdMs_eq_of_lt ht
  unfold iteration
  rw [hth]
  by_cases hidle : t * 60000 < inp.idle
  · rw [if_pos hidle]
    obtain ⟨x, hx⟩ := gen_range_pos_some hr inp.ux
    obtain ⟨y, hy⟩ := gen_range_pos_some hr inp.uy
    rw [hx, hy]
    refine ⟨_, rfl, ?_⟩
    rw [if_pos hidle]
    by_cases hmo : inp.moveOk <;> simp [hmo, movesIn, isMove]
  · rw [if_neg hidle]
    refine ⟨_, rfl, ?_⟩
    rw [if_neg hidle]
    simp [movesIn, isMove]

/-- C2 counterexample: `idle_time = 307445734561826` is accepted by the CLI
validator, yet with `mouse_range = 50` an idle sample of `10000` ms — far
below `T * 60000` — triggers a move, because the code compares against the
wrapped u64 product (8384) rather than `T * 60000`. -/
theorem c2_counterexample :
    (iteration 307445734561826 50 ⟨10000, 0, 0, true⟩).map movesIn = some 1
    ∧ (10000 : Nat) ≤ 307445734561826 * 60000
    ∧ thresholdMs 307445734561826 = 8384 := by
  refine ⟨rfl, by norm_num, rfl⟩

/-- Witness for C2 at the spec's Scenario 1 (`T = 10`, `R = 50`, idle
`601000` ms): exactly one move. -/
theorem c2_witness :
    ∃ evs, iteration 10 50 ⟨601000, 3, 7, true⟩ = some evs ∧ movesIn evs = 1 := by
  obtain ⟨evs, h1, h2⟩ :=
    c2_idle_threshold_gates_moves 10 50 ⟨601000, 3, 7, true⟩ (by decide) (by norm_num)
  exact ⟨evs, h1, by simpa using h2⟩

/-! ### C3 -/

/-- C3: when `Mouse::new` fails, `start` prints the configuration lines, then
the failed kind's human-readable message, then exits with status 1 (nonzero);
the trace is independent of the loop inputs and holds no `pointer_move` call,
so the control loop is never entered. -/
theorem c3_setup_failure_exits (t : Nat) (r : Int) (e : MouseError)
    (iters : List LoopInput) :
    startTrace t r (Except.error e) iters =
      [Ev.printLine ("Idle time set to: " ++ toString t ++ " minutes"),
       Ev.printLine ("When idle mouse will be moved by " ++ toString r
         ++ "px in both axes"),
       Ev.printLine e.message, Ev.exitCode 1]
    ∧ movesIn (startTrace t r (Except.error e) iters) = 0
    ∧ (∃ n, n ≠ 0 ∧ Ev.exitCode n ∈ startTrace t r (Except.error e) iters) := by
  refine ⟨rfl, ?_, 1, one_ne_zero, ?_⟩
  · simp [startTrace, movesIn, isMove]
  · simp [startTrace]

/-! ### C4 -/

/-- C4: when the `pointer_move` emit of a triggered iteration is rejected,
the iteration still completes normally: the loop prints
"Cannot move virtual mouse", the iteration's events are followed by the rest
of the loop, and every later iteration again starts with its 1 s sleep and
idle check. -/
theorem c4_move_failure_nonfatal (t : Nat) (r : Int) (inp : LoopInput)
    (rest : List LoopInput) (hr : 0 < r) (hid : thresholdMs t < inp.idle)
    (hok : inp.moveOk = false) :
    ∃ evs, iteration t r inp = some evs ∧
      Ev.printLine MouseError.AxisEventEmitError.message ∈ evs ∧
      runLoop t r (inp :: rest) = evs ++ runLoop t r rest ∧
      ∀ inp2 : LoopInput, ∃ evs2, iteration t r inp2 = some evs2 ∧
        evs2.head? = some (Ev.sleepMs 1000) := by
  obtain ⟨x, hx⟩ := gen_range_pos_some hr inp.ux
  obtain ⟨y, hy⟩ := gen_range_pos_some hr inp.uy
  have hIt : iteration t r inp =
      some [Ev.sleepMs 1000,
            Ev.printLine ("Idle: " ++ toString inp.idle ++ "ms, moving mouse by x: "
              ++ toString x ++ ", y: " ++ toString y),
            Ev.moveCall x y false,
            Ev.printLine MouseError.AxisEventEmitError.message] := by
    unfold iteration
    rw [if_pos hid, hx, hy, hok]
    rfl
  refine ⟨_, hIt, by simp, ?_, ?_⟩
  · rw [runLoop, hIt]
  · intro inp2
    obtain ⟨x2, hx2⟩ := gen_range_pos_some hr inp2.ux
    obtain ⟨y2, hy2⟩ := gen_range_pos_some hr inp2.uy
    unfold iteration
    by_cases h2 : thresholdMs t < inp2.idle
    · rw [if_pos h2, hx2, hy2]
      by_cases hmo2 : inp2.moveOk <;> simp [hmo2]
    · rw [if_neg h2]
      exact ⟨_, rfl, rfl⟩

/-- Witness for C4 at concrete inputs: threshold 0, range 1, idle 1 ms,
rejected move. -/
theorem c4_witness :
    ∃ evs, iteration 0 1 ⟨1, 0, 0, false⟩ = some evs ∧
      Ev.printLine MouseError.AxisEventEmitError.message ∈ evs ∧
      runLoop 0 1 (⟨1, 0, 0, false⟩ :: [⟨2, 0, 0, true⟩]) = evs ++ runLoop 0 1 [⟨2, 0, 0, true⟩] ∧
      ∀ inp2 : LoopInput, ∃ evs2, iteration 0 1 inp2 = some evs2 ∧
        evs2.head? = some (Ev.sleepMs 1000) :=
  c4_move_failure_nonfatal 0 1 ⟨1, 0, 0, false⟩ [⟨2, 0, 0, true⟩]
    (by norm_num) (by decide) rfl

/-! ### C5 -/

/-- C5 (amended): every `click` that returns success has appended exactly an
accepted press of the key, the fixed 50 ms pause, and an accepted release, in
that order, before returning — so repeated successful clicks yield strictly
alternating down/up pairs; a click whose release emission is rejected instead
returns an error with the press already delivered and unmatched. -/
theorem c5_click_press_pause_release (st : DeviceState) (key : Nat)
    (h : (click st key).1 = Except.ok ()) :
    (click st key).2.trace = st.trace ++
      [DevAct.emitCall [key_event key 1] true, DevAct.sleepMs 50,
       DevAct.emitCall [key_event key 0] true] := by
  obtain ⟨oracle, trace⟩ := st
  cases oracle with
  | nil => simp [click, key_down, key_up, emit, sleepAct]
  | cons b1 rest1 =>
    cases b1 with
    | false => simp [click, key_down, key_up, emit, sleepAct] at h
    | true =>
      cases rest1 with
      | nil => simp [click, key_down, key_up, emit, sleepAct]
      | cons b2 rest2 =>
        cases b2 with
        | false => simp [click, key_down, key_up, emit, sleepAct] at h
        | true => simp [click, key_down, key_up, emit, sleepAct]

/-- C5 counterexample: with the OS accepting the press but rejecting the
release, `click` returns an error having delivered the down event and no up
event: the press-then-release pair is not completed and the button is left in
a pressed state. -/
theorem c5_counterexample :
    (click ⟨[true, false], []⟩ BTN_LEFT).1 = Except.error MouseError.ButtonEventEmitError
    ∧ keyEventCount (click ⟨[true, false], []⟩ BTN_LEFT).2.trace BTN_LEFT 1 = 1
    ∧ keyEventCount (click ⟨[true, false], []⟩ BTN_LEFT).2.trace BTN_LEFT 0 = 0 := by
  refine ⟨rfl, rfl, rfl⟩

/-- Witness for C5: a fully accepted click. -/
theorem c5_witness :
    (click ⟨[], []⟩ BTN_LEFT).1 = Except.ok ()
    ∧ (click ⟨[], []⟩ BTN_LEFT).2.trace = ([] : List DevAct) ++
        [DevAct.emitCall [key_event BTN_LEFT 1] true, DevAct.sleepMs 50,
         DevAct.emitCall [key_event BTN_LEFT 0] true] :=
  ⟨rfl, c5_click_press_pause_release ⟨[], []⟩ BTN_LEFT rfl⟩

/-! ### C6 -/

/-- C6: `pointer_move dx dy` performs exactly one emit call whose payload is
the relative X event followed by the relative Y event, and when the OS
rejects that submission the returned error is `AxisEventEmitError` — no other
error kind can be returned. -/
theorem c6_pointer_move_submission (st : DeviceState) (x y : Int) :
    (∃ ok : Bool,
      (pointer_move st x y).2.trace =
        st.trace ++ [DevAct.emitCall [move_event REL_X x, move_event REL_Y y] ok] ∧
      (pointer_move st x y).1 =
        (if ok then Except.ok () else Except.error MouseError.AxisEventEmitError))
    ∧ ∀ e, (pointer_move st x y).1 = Except.error e →
        e = MouseError.AxisEventEmitError := by
  obtain ⟨oracle, trace⟩ := st
  cases oracle with
  | nil =>
    refine ⟨⟨true, by simp [pointer_move, emit], rfl⟩, ?_⟩
    intro e he
    simp [pointer_move, emit] at he
  | cons b rest =>
    refine ⟨⟨b, by simp [pointer_move, emit], rfl⟩, ?_⟩
    intro e he
    cases b with
    | false =>
      simp [pointer_move, emit] at he
      exact he.symm
    | true => simp [pointer_move, emit] at he

/-- Witness for C6: a rejected submission returns the axis-emission error. -/
theorem c6_witness :
    (pointer_move ⟨[false], []⟩ 3 (-4)).1 = Except.error MouseError.AxisEventEmitError
    ∧ MouseError.AxisEventEmitError = MouseError.AxisEventEmitError :=
  ⟨rfl, (c6_pointer_move_submission ⟨[false], []⟩ 3 (-4)).2
    MouseError.AxisEventEmitError rfl⟩

/-! ### C7 -/

/-- C7: `Mouse::new` fails with the setup error kind of the first fallible
construction step that failed — builder init, key capabilities, axis
capabilities, device build, in that order — never with an emission kind; on
success the returned device carries the 150 ms settle sleep, which lies
within the 100-200 ms range. -/
theorem c7_new_error_kinds :
    (∀ k a c, Mouse.new false k a c = Except.error MouseError.BuilderInitError)
    ∧ (∀ a c, Mouse.new true false a c = Except.error MouseError.KeysAssignError)
    ∧ (∀ c, Mouse.new true true false c = Except.error MouseError.AxesAssignError)
    ∧ Mouse.new true true true false = Except.error MouseError.CreateDeviceError
    ∧ (∃ m, Mouse.new true true true true = Except.ok m ∧
        m.settle_ms = 150 ∧ 100 ≤ m.settle_ms ∧ m.settle_ms ≤ 200)
    ∧ (∀ b k a c e, Mouse.new b k a c = Except.error e →
        e = MouseError.BuilderInitError ∨ e = MouseError.KeysAssignError ∨
        e = MouseError.AxesAssignError ∨ e = MouseError.CreateDeviceError) := by
  refine ⟨fun k a c => rfl, fun a c => rfl, fun c => rfl, rfl,
    ⟨_, rfl, rfl, by norm_num, by norm_num⟩, ?_⟩
  intro b k a c e h
  cases b <;> cases k <;> cases a <;> cases c <;>
    simp [Mouse.new] at h <;> simp [← h]

/-- Witness for C7 at concrete step outcomes. -/
theorem c7_witness :
    Mouse.new false true true true = Except.error MouseError.BuilderInitError
    ∧ (MouseError.BuilderInitError = MouseError.BuilderInitError ∨
       MouseError.BuilderInitError = MouseError.KeysAssignError ∨
       MouseError.BuilderInitError = MouseError.AxesAssignError ∨
       MouseError.BuilderInitError = MouseError.CreateDeviceError) :=
  ⟨c7_new_error_kinds.1 true true true,
   c7_new_error_kinds.2.2.2.2.2 false true true true MouseError.BuilderInitError rfl⟩

/-! ### C8 -/

/-- C8: the message map is total over the closed error enum, every message is
a nonempty human-readable string, and distinct error kinds carry distinct
messages. -/
theorem c8_message_total_distinct :
    (∀ e : MouseError, e.message ≠ "")
    ∧ (∀ e1 e2 : MouseError, e1.message = e2.message → e1 = e2) := by
  constructor
  · intro e
    cases e <;> decide
  · intro e1 e2 h
    cases e1 <;> cases e2 <;> revert h <;> decide

/-- Witness for C8 at concrete error kinds. -/
theorem c8_witness :
    MouseError.BuilderInitError.message ≠ ""
    ∧ MouseError.AxisEventEmitError = MouseError.AxisEventEmitError :=
  ⟨c8_message_total_distinct.1 MouseError.BuilderInitError,
   c8_message_total_distinct.2 MouseError.AxisEventEmitError
     MouseError.AxisEventEmitError rfl⟩

/-! ### C9 -/

/-- C9: every successfully created device declares exactly the two button
capabilities BTN_LEFT and BTN_RIGHT, exactly the two relative axes REL_X and
REL_Y, and the fixed identity (BUS_USB, 0x0001, 0x0001, 0x0001); the identity
is the same on every successful run. -/
theorem c9_device_capabilities (b k a c : Bool) (m : MouseSetup)
    (h : Mouse.new b k a c = Except.ok m) :
    m.keys = [BTN_LEFT, BTN_RIGHT] ∧ m.keys.length = 2 ∧ BTN_LEFT ≠ BTN_RIGHT
    ∧ m.axes = [REL_X, REL_Y] ∧ m.axes.length = 2 ∧ REL_X ≠ REL_Y
    ∧ (m.bus, m.vendor, m.product, m.version) = (BUS_USB, 1, 1, 1)
    ∧ ∀ b' k' a' c' m', Mouse.new b' k' a' c' = Except.ok m' →
        (m'.bus, m'.vendor, m'.product, m'.version) =
          (m.bus, m.vendor, m.product, m.version) := by
  have hm : ∀ b0 k0 a0 c0 (m0 : MouseSetup), Mouse.new b0 k0 a0 c0 = Except.ok m0 →
      m0 = ⟨"KPRS mouse device", [BTN_LEFT, BTN_RIGHT], [REL_X, REL_Y],
            BUS_USB, 1, 1, 1, 150⟩ := by
    intro b0 k0 a0 c0 m0 h0
    cases b0 <;> cases k0 <;> cases a0 <;> cases c0 <;> simp_all [Mouse.new]
  have hmm := hm b k a c m h
  subst hmm
  refine ⟨rfl, rfl, by decide, rfl, rfl, by decide, rfl, ?_⟩
  intro b' k' a' c' m' h'
  rw [hm b' k' a' c' m' h']

/-- Witness for C9 at the all-successful construction. -/
theorem c9_witness :
    (⟨"KPRS mouse device", [BTN_LEFT, BTN_RIGHT], [REL_X, REL_Y],
      BUS_USB, 1, 1, 1, 150⟩ : MouseSetup).keys = [BTN_LEFT, BTN_RIGHT] :=
  (c9_device_capabilities true true true true _ rfl).1

/-! ### C10 -/

/-- A value accepted by the u64 parse model fits in 64 bits. -/
theorem parseU64_lt {s : String} {n : Nat} (h : parseU64 s = some n) :
    n < u64Size := by
  unfold parseU64 at h
  split at h
  · split at h
    · injection h with h'
      omega
    · exact absurd h (by simp)
  · exact absurd h (by simp)

/-- A value accepted by the i32 parse model lies in the i32 range. -/
theorem parseI32_le {s : String} {n : Int} (h : parseI32 s = some n) :
    -2147483648 ≤ n ∧ n ≤ 2147483647 := by
  unfold parseI32 at h
  split at h <;>
  · split at h
    · split at h
      · injection h with h'
        omega
      · exact absurd h (by simp)
    · exact absurd h (by simp)

/-- The idle-time validator accepts exactly the strings the u64 parse model
accepts. -/
theorem idle_ok_iff (s : String) (n : Nat) :
    validators.idle_time s = Except.ok n ↔ parseU64 s = some n := by
  unfold validators.idle_time
  cases h : parseU64 s <;> simp [h]

/-- The mouse-range validator accepts exactly the strings the i32 parse model
accepts with a nonnegative value. -/
theorem range_ok_iff (s : String) (n : Int) :
    validators.mouse_range s = Except.ok n ↔ (parseI32 s = some n ∧ 0 ≤ n) := by
  unfold validators.mouse_range
  cases h : parseI32 s with
  | none => simp [h]
  | some m =>
    simp only [h]
    by_cases hm : m ≥ 0
    · rw [if_pos hm]
      constructor
      · intro he
        simp only [Except.ok.injEq] at he
        subst he
        exact ⟨rfl, hm⟩
      · rintro ⟨hs, _⟩
        simp only [Option.some.injEq] at hs
        subst hs
        rfl
    · rw [if_neg hm]
      constructor
      · intro he
        simp at he
      · rintro ⟨hs, hn⟩
        simp only [Option.some.injEq] at hs
        subst hs
        exact absurd hn hm

/-- C10: the idle-time validator accepts a string iff it parses as a u64, the
mouse-range validator accepts a string iff it parses as a nonnegative i32;
hence accepted mouse ranges never exceed 2147483647 (the string "2147483648"
is rejected) and accepted idle times never exceed 18446744073709551615 (the
string "18446744073709551616" is rejected); and for every accepted idle time
above 307445734561825 the u64 threshold product wraps instead of equaling
`T * 60000`. -/
theorem c10_cli_validators :
    (∀ s n, validators.idle_time s = Except.ok n ↔ parseU64 s = some n)
    ∧ (∀ s n, validators.mouse_range s = Except.ok n ↔ (parseI32 s = some n ∧ 0 ≤ n))
    ∧ (∀ s n, validators.idle_time s = Except.ok n → n ≤ 18446744073709551615)
    ∧ (∀ s n, validators.mouse_range s = Except.ok n → 0 ≤ n ∧ n ≤ 2147483647)
    ∧ validators.mouse_range "2147483648" = Except.error "must be valid positive integer"
    ∧ validators.idle_time "18446744073709551616" = Except.error "must be valid positive integer"
    ∧ (∀ T : Nat, T ≤ 18446744073709551615 → 307445734561825 < T →
        thresholdMs T ≠ T * 60000) := by
  refine ⟨idle_ok_iff, range_ok_iff, ?_, ?_, rfl, rfl, ?_⟩
  · intro s n h
    have hlt := parseU64_lt ((idle_ok_iff s n).mp h)
    unfold u64Size at hlt
    omega
  · intro s n h
    obtain ⟨hp, hn⟩ := (range_ok_iff s n).mp h
    exact ⟨hn, (parseI32_le hp).2⟩
  · intro T h1 h2
    unfold thresholdMs u64Size
    omega

/-- Witness for C10 at concrete strings and a concrete overflowing idle
time. -/
theorem c10_witness :
    (validators.idle_time "10" = Except.ok 10 ↔ parseU64 "10" = some 10)
    ∧ (10 : Nat) ≤ 18446744073709551615
    ∧ ((0 : Int) ≤ 50 ∧ (50 : Int) ≤ 2147483647)
    ∧ thresholdMs 307445734561826 ≠ 307445734561826 * 60000 :=
  ⟨c10_cli_validators.1 "10" 10,
   c10_cli_validators.2.2.1 "10" 10 rfl,
   c10_cli_validators.2.2.2.1 "50" 50 rfl,
   c10_cli_validators.2.2.2.2.2.2 307445734561826 (by norm_num) (by norm_num)⟩
